import Mathlib

/-!
Shallow embedding of `src/llm_council_tool/llm_council.py` (LLM Council Tool).

Python strings are modelled as Lean `String`s; where character-level scanning
is needed (the regex-based ranking parser, `str.strip`, `str.split`), we work
on `String.data : List Char` with structural recursion so that every
definition is kernel-computable.  Network calls are abstracted as oracles:
a model's reply is a value of type `MResp` mirroring what
`_query_model_sync` can return (a truthy message dict without an "error"
key, a truthy dict with an "error" key, or a falsy value).
-/

namespace LLMCouncil

/-- ASCII lower-casing of one character, the fragment of Python `str.lower`
relevant here (the only use is comparing the valve against `"all"`). -/
def asciiLower (c : Char) : Char :=
  if 'A' ≤ c ∧ c ≤ 'Z' then Char.ofNat (c.toNat + 32) else c

/-- Python `\s` / `str.strip` whitespace, ASCII part: space, tab, newline,
carriage return, form feed, vertical tab. -/
def isPySpace (c : Char) : Bool :=
  c = ' ' || c = '\t' || c = '\n' || c = '\x0d' || c = '\x0c' || c = '\x0b'

/-- Python regex `\d`: an ASCII digit. -/
def isDigitCh (c : Char) : Bool := '0' ≤ c && c ≤ '9'

/-- Python regex `[A-Z]`: an ASCII uppercase letter. -/
def isUpperAZ (c : Char) : Bool := 'A' ≤ c && c ≤ 'Z'

/-- If `p` is a leading pattern of `l`, return the remainder of `l` after
consuming `p`; otherwise `none`. -/
def dropPat : List Char → List Char → Option (List Char)
  | [], rest => some rest
  | _ :: _, [] => none
  | p :: ps, c :: cs => if c = p then dropPat ps cs else none

/-- Python `str.strip()` on a character list (ASCII whitespace). -/
def trimPy (l : List Char) : List Char :=
  ((l.dropWhile isPySpace).reverse.dropWhile isPySpace).reverse

/-- Helper for `splitComma`: `acc` is the current segment, reversed. -/
def splitCommaGo : List Char → List Char → List (List Char)
  | [], acc => [acc.reverse]
  | c :: cs, acc =>
    if c = ',' then acc.reverse :: splitCommaGo cs [] else splitCommaGo cs (c :: acc)

/-- Python `s.split(",")`. -/
def splitComma (l : List Char) : List (List Char) := splitCommaGo l []

/-- Python `sep.join(l)`. -/
def joinSep (sep : String) : List String → String
  | [] => ""
  | [x] => x
  | x :: y :: ys => x ++ sep ++ joinSep sep (y :: ys)

/-- Python `a in b` for strings: `a` occurs contiguously inside `b`. -/
abbrev substrOf (a b : String) : Prop := a.data <:+: b.data

/-! ### The ranking parser (`_parse_ranking_from_text`) -/

/-- The literal inside the regexes `r"Response [A-Z]"`. -/
def respPat : List Char := "Response ".data

/-- Match the regex `Response [A-Z]` at the head of `l`; on success return
the matched text and the remainder after it. -/
def matchResp (l : List Char) : Option (String × List Char) :=
  match dropPat respPat l with
  | some (c :: rest) => if isUpperAZ c then some (⟨respPat ++ [c]⟩, rest) else none
  | _ => none

/-- Match the regex `\d+\.\s*Response [A-Z]` at the head of `l` (greedy `\d+`
and `\s*`; no backtracking can succeed where the greedy scan fails, since a
digit is never `'.'` and a whitespace character is never `'R'`). -/
def matchNumbered (l : List Char) : Option (String × List Char) :=
  let digits := l.takeWhile isDigitCh
  let r1 := l.dropWhile isDigitCh
  if digits = [] then none
  else
    match r1 with
    | '.' :: r2 =>
      let sps := r2.takeWhile isPySpace
      let r3 := r2.dropWhile isPySpace
      match matchResp r3 with
      | some (m, rest) => some (⟨digits ++ '.' :: (sps ++ m.data)⟩, rest)
      | none => none
    | _ => none

/-- Non-overlapping left-to-right scan for `Response [A-Z]`
(Python `re.findall`).  The second argument counts characters still to be
skipped because they belong to the previous match. -/
def findallRespGo : List Char → Nat → List String
  | [], _ => []
  | _ :: cs, k + 1 => findallRespGo cs k
  | c :: cs, 0 =>
    match matchResp (c :: cs) with
    | some (m, _) => m :: findallRespGo cs (m.data.length - 1)
    | none => findallRespGo cs 0

/-- Python `re.findall(r"Response [A-Z]", l)`. -/
def findallResp (l : List Char) : List String := findallRespGo l 0

/-- Python `re.findall(r"\d+\.\s*Response [A-Z]", l)`. -/
def findallNumberedGo : List Char → Nat → List String
  | [], _ => []
  | _ :: cs, k + 1 => findallNumberedGo cs k
  | c :: cs, 0 =>
    match matchNumbered (c :: cs) with
    | some (m, _) => m :: findallNumberedGo cs (m.data.length - 1)
    | none => findallNumberedGo cs 0

/-- Python `re.findall(r"\d+\.\s*Response [A-Z]", l)` entry point. -/
def findallNumbered (l : List Char) : List String := findallNumberedGo l 0

/-- Python `re.search(r"Response [A-Z]", l)`: the first match, if any. -/
def searchResp : List Char → Option String
  | [] => none
  | c :: cs =>
    match matchResp (c :: cs) with
    | some (m, _) => some m
    | none => searchResp cs

/-- The marker literal `"FINAL RANKING:"`. -/
def markerPat : List Char := "FINAL RANKING:".data

/-- Everything after the first occurrence of the marker, or `none` if the
marker does not occur (`"FINAL RANKING:" in text` is exactly `isSome`). -/
def findMarkerSplit : List Char → Option (List Char)
  | [] => none
  | c :: cs =>
    match dropPat markerPat (c :: cs) with
    | some rest => some rest
    | none => findMarkerSplit cs

/-- The segment before the next occurrence of the marker (the whole list when
the marker does not occur again).  `(findMarkerSplit l).map takeUntilMarker`
is Python `l.split("FINAL RANKING:")[1]`. -/
def takeUntilMarker : List Char → List Char
  | [] => []
  | c :: cs =>
    match dropPat markerPat (c :: cs) with
    | some _ => []
    | none => c :: takeUntilMarker cs

/-- `_parse_ranking_from_text`: marker-based extraction with two fallbacks.
In the numbered branch Python calls `.group()` on `re.search(...)`, which is
provably never `None` there; `.getD ""` models that access. -/
def parse_ranking_from_text (s : String) : List String :=
  match findMarkerSplit s.data with
  | some afterM =>
    let rankingSection := takeUntilMarker afterM
    let numbered := findallNumbered rankingSection
    if numbered = [] then findallResp rankingSection
    else numbered.map (fun m => (searchResp m.data).getD "")
  | none => findallResp s.data

/-! ### Topic normalization -/

/-- One element of an OpenWebUI multimodal content list: a dict with
`"type": "text"` (carrying `item.get("text", "")`), a dict with
`"type": "image_url"`, or anything else (a non-dict or unknown-type item,
skipped by `_topic_to_text`). -/
inductive ContentPart where
  | text (t : String)
  | imageUrl (u : String)
  | other
deriving DecidableEq

/-- The annotated domain of `topic`: `Union[str, List[Dict[str, Any]]]`. -/
inductive Topic where
  | str (s : String)
  | list (parts : List ContentPart)
deriving DecidableEq

/-- The codomain of `_normalize_topic_to_content`: a plain string or the
list of content parts, as sent to the API. -/
inductive Content where
  | str (s : String)
  | parts (l : List ContentPart)
deriving DecidableEq

/-- `_normalize_topic_to_content`: a string passes through; a list passes
through unless empty (`return topic if topic else ""`). -/
def normalize_topic_to_content : Topic → Content
  | .str s => .str s
  | .list l => if l = [] then .str "" else .parts l

/-- `_topic_to_text`: plain-text rendering for prompt construction. -/
def topic_to_text : Topic → String
  | .str s => s
  | .list l =>
    let parts := l.filterMap fun
      | ContentPart.text t => some t
      | ContentPart.imageUrl _ => some "[Image attached]"
      | ContentPart.other => none
    let joined := (joinSep " " parts).trim
    if joined = "" then "[No text content]" else joined

/-! ### Model replies and the stage-1 partition -/

/-- What `_query_model_sync` can hand back, as observed by the pipeline's
conditionals: `msg c` is a truthy message dict without an `"error"` key
whose `get("content", d)` yields `c`; `err e` is a truthy dict with an
`"error"` key (it has no `"content"` key, so `get("content", d)` yields
the default); `null` is a falsy value. -/
inductive MResp where
  | null
  | msg (content : String)
  | err (e : String)
deriving DecidableEq

/-- Python `response.get("content", d)`. -/
def contentGetD : MResp → String → String
  | .msg c, _ => c
  | _, d => d

/-- Python `response['error']` (only read on the error branch). -/
def errTextOf : MResp → String
  | .err e => e
  | _ => ""

/-- One surviving stage-1 answer: `{"model": ..., "response": ...}`. -/
structure VResp where
  model : String
  response : String
deriving DecidableEq

/-- The stage-1 collection loop: a truthy non-error reply with non-empty
content joins `valid_responses`; a truthy error reply appends
`f"{model}: {response['error']}"` to `errors`; anything else is skipped. -/
def partitionStage1 : List (String × MResp) → List VResp × List String
  | [] => ([], [])
  | (m, r) :: rest =>
    let p := partitionStage1 rest
    match r with
    | .msg c => if c = "" then p else (⟨m, c⟩ :: p.1, p.2)
    | .err e => (p.1, (m ++ ": " ++ e) :: p.2)
    | .null => p

/-- One stage-2 record: `{"model": ..., "full_text": ..., "parsed": ...}`. -/
structure Ranking where
  model : String
  full_text : String
  parsed : List String
deriving DecidableEq

/-- The stage-2 collection loop: `if response:` — any truthy reply
(including an error dict, whose `get("content","")` is `""`) is appended;
only a falsy reply is skipped. -/
def collectRankings : List (String × MResp) → List Ranking
  | [] => []
  | (_, MResp.null) :: rest => collectRankings rest
  | (m, r) :: rest =>
    ⟨m, contentGetD r "", parse_ranking_from_text (contentGetD r "")⟩ :: collectRankings rest

/-! ### Anonymized labels and the ranking prompt -/

/-- `labels = [chr(65 + i) for i in range(n)]`. -/
def labelsFor (n : Nat) : List String :=
  (List.range n).map fun i => String.singleton (Char.ofNat (65 + i))

/-- The anonymized blocks joined into the ranking prompt:
`"\n\n".join(f"Response {label}:\n{r['response']}" for label, r in zip(labels, valid))`. -/
def responsesText (valid : List VResp) : String :=
  joinSep "\n\n" (((labelsFor valid.length).zip valid).map
    fun p => "Response " ++ p.1 ++ ":\n" ++ p.2.response)

/-- The stage-2 ranking prompt (f-string of lines 450-471). -/
def rankingPrompt (topicText : String) (valid : List VResp) : String :=
  "You are evaluating different responses to the following question:\n\nQuestion: "
  ++ topicText
  ++ "\n\nHere are the responses from different models (anonymized):\n\n"
  ++ responsesText valid
  ++ "\n\nYour task:\n1. Evaluate each response individually (strengths/weaknesses).\n2. Provide a final ranking.\n\nIMPORTANT: Your final ranking MUST be formatted EXACTLY as follows:\n- Start with the line \"FINAL RANKING:\" (all caps, with colon)\n- Then list the responses from best to worst as a numbered list\n- Each line should be: number, period, space, then ONLY the response label (e.g., \"1. Response A\")\n\nFINAL RANKING:\n1. Response [Label]\n2. Response [Label]\n...\n"

/-! ### Roster resolution -/

/-- `self.valves.council_models.lower().strip()` (ASCII fragment of
`str.lower`, which is all the `== "all"` comparison can observe). -/
def lowerStrip (valve : String) : String :=
  ⟨trimPy (valve.data.map asciiLower)⟩

/-- `[m.strip() for m in valve.split(",") if m.strip()]`. -/
def requestedModelsOf (valve : String) : List String :=
  (((splitComma valve.data).map fun cs => (⟨trimPy cs⟩ : String)).filter
    fun m => m ≠ "")

/-- The explicit-list validation loop (lines 352-357): keep each requested
id present in the catalog (in requested order), collect each absent one. -/
def resolveExplicit (available : List String) : List String → List String × List String
  | [] => ([], [])
  | m :: rest =>
    let p := resolveExplicit available rest
    if available.contains m then (m :: p.1, p.2) else (p.1, m :: p.2)

/-- `f"Warning: The following models were not found and will be skipped: ..."`
(emitted via the status sink when `missing_models` is non-empty). -/
def missingWarning (missing : List String) : String :=
  "Warning: The following models were not found and will be skipped: " ++ joinSep ", " missing

/-- Lines 330-380: determine `target_models` from the valve and the fetched
catalog, or return one of the error strings.  An empty `available` models a
failed catalog fetch (`_get_available_models` returns `[]` on any error). -/
def determineTarget (valve : String) (maxModels : Nat) (available : List String) :
    Except String (List String × List String) :=
  if lowerStrip valve = "all" then
    if available = [] then
      .error "Error: \x27council_models\x27 set to \x27all\x27, but could not fetch available models from API."
    else .ok (available.take maxModels, [])
  else
    let requested := requestedModelsOf valve
    if available = [] then .ok (requested, [])
    else
      let p := resolveExplicit available requested
      if p.1 = [] then
        .error ("Error: None of the requested models (" ++ joinSep ", " requested ++ ") are available.")
      else .ok p

/-- Lines 383-385: explicit valve if set, else first council member. -/
def resolveChair (chairValve : String) (council : List String) : String :=
  if chairValve = "" then council.headD "" else chairValve

/-! ### Stage-3 prompt and the report -/

/-- Python `repr` of a string, restricted to strings without quotes or
escapes — the only strings it is applied to here are parsed labels of the
shape `Response X`. -/
def pyStrRepr (s : String) : String := "\x27" ++ s ++ "\x27"

/-- Python `str` of a list of such strings (f-string interpolation of
`r['parsed']` on line 505). -/
def pyListRepr (l : List String) : String :=
  "[" ++ joinSep ", " (l.map pyStrRepr) ++ "]"

/-- Lines 499-501. -/
def stage1Summary (valid : List VResp) : String :=
  joinSep "\n\n" (valid.map fun r => "Model: " ++ r.model ++ "\nResponse: " ++ r.response)

/-- Lines 503-508; the `'parsed'` key is always present, so the `.get`
default `'No valid ranking found'` is never used. -/
def stage2Summary (rankings : List Ranking) : String :=
  joinSep "\n\n" (rankings.map fun r => "Model: " ++ r.model ++ "\nRanking: " ++ pyListRepr r.parsed)

/-- The stage-3 chairperson prompt (lines 510-522; line 511 of the source
is a line holding eight spaces inside the triple-quoted string). -/
def chairmanPrompt (topicText s1 s2 : String) : String :=
  "You are the Chairperson of an LLM Council.\n        \nOriginal Question: "
  ++ topicText
  ++ "\n\nSTAGE 1 - Individual Responses:\n"
  ++ s1
  ++ "\n\nSTAGE 2 - Peer Rankings:\n"
  ++ s2
  ++ "\n\nYour task as Chairman is to synthesize a single, comprehensive answer.\nConsider the insights from Stage 1 and the consensus (or disagreement) from Stage 2.\n"

/-- Lines 548-560: the Stage 3 report section.  A truthy reply (including
an error dict) lands in the first branch, where the missing `"content"`
key degrades to the `"Error: No content."` placeholder; only a falsy reply
produces the second placeholder. -/
def reportStage3 (chairperson : String) (finalResp : MResp) : String :=
  match finalResp with
  | .null =>
    "\n## Stage 3: Chairperson Synthesis\nError: Chairperson failed to synthesize the final response."
  | r =>
    "\n## Stage 3: Chairperson Synthesis (" ++ chairperson ++ ")\n"
      ++ contentGetD r "Error: No content."

/-- Lines 535-562: `"\n".join(report_parts)`. -/
def buildReport (valid : List VResp) (rankings : List Ranking)
    (chairperson : String) (finalResp : MResp) : String :=
  joinSep "\n"
    (["# 🏛️ LLM Council Report\n", "## Stage 1: Individual Perspectives"]
      ++ valid.map (fun r => "### " ++ r.model ++ "\n" ++ r.response ++ "\n")
      ++ ["\n## Stage 2: Peer Evaluation & Ranking"]
      ++ rankings.map (fun r => "### " ++ r.model ++ "\x27s Ranking\n" ++ r.full_text ++ "\n")
      ++ [reportStage3 chairperson finalResp])

/-- Lines 423-429: the aborting message when stage 1 produced no valid
response. -/
def allFailedMsg (errors : List String) : String :=
  "Error: Please check your OpenWebUI Base URL and API Key. Details: All council models failed. Errors: "
    ++ (if errors = [] then "Unknown error" else joinSep "; " errors)

/-! ### The pipeline -/

/-- One outbound chat-completion request issued by the pipeline. -/
inductive Call where
  | stage1 (model : String)
  | stage2 (model : String)
  | stage3 (model : String)
deriving DecidableEq

/-- The inputs `consult_council` works from, once credentials are resolved:
the topic, the valves, the fetched catalog (`[]` models a failed fetch),
and the upstream behaviour as an oracle from (model, messages) to a reply —
one oracle call per `_query_model_async` invocation. -/
structure Env where
  topic : Topic
  councilValve : String
  chairValve : String
  maxModels : Nat
  available : List String
  reply : String → List (String × Content) → MResp

/-- `stage1_messages` (line 404). -/
def stage1Messages (env : Env) : List (String × Content) :=
  [("user", normalize_topic_to_content env.topic)]

/-- `ranking_messages` (line 472). -/
def stage2Messages (env : Env) (valid : List VResp) : List (String × Content) :=
  [("user", Content.str (rankingPrompt (topic_to_text env.topic) valid))]

/-- `chairman_messages` (line 523). -/
def stage3Messages (env : Env) (valid : List VResp) (rankings : List Ranking) :
    List (String × Content) :=
  [("user", Content.str (chairmanPrompt (topic_to_text env.topic)
    (stage1Summary valid) (stage2Summary rankings)))]

/-- Lines 396-574 with a resolved non-empty council: stage-1 fan-out
(`asyncio.gather` preserves issuance order, so the result list pairs each
council member with its reply, in request order), abort if nothing
survived, otherwise stage-2 fan-out, the single stage-3 call, and the
report.  The second component records every chat request issued. -/
def runPipeline (env : Env) (council : List String) : String × List Call :=
  let chairperson := resolveChair env.chairValve council
  let s1 := council.map fun m => (m, env.reply m (stage1Messages env))
  let p := partitionStage1 s1
  if p.1 = [] then
    (allFailedMsg p.2, council.map Call.stage1)
  else
    let s2 := council.map fun m => (m, env.reply m (stage2Messages env p.1))
    let rankings := collectRankings s2
    let finalResp := env.reply chairperson (stage3Messages env p.1 rankings)
    (buildReport p.1 rankings chairperson finalResp,
      council.map Call.stage1 ++ council.map Call.stage2 ++ [Call.stage3 chairperson])

/-- `consult_council` from roster resolution onward (the earlier part of
the function only resolves credentials and, on total absence of an API
key, returns before any of the behaviour the claims are about). -/
def consultCouncil (env : Env) : String × List Call :=
  match determineTarget env.councilValve env.maxModels env.available with
  | .error e => (e, [])
  | .ok (target, _missing) =>
    if target = [] then ("Error: No council models configured or found.", [])
    else runPipeline env target

/-! ### Helper lemmas -/

theorem substrOf_app_right (a b c : String) (h : substrOf a b) : substrOf a (b ++ c) := by
  obtain ⟨s, t, hh⟩ := h
  exact ⟨s, t ++ c.data, by simp [String.data_append, ← hh]⟩

theorem substrOf_app_left (a b c : String) (h : substrOf a c) : substrOf a (b ++ c) := by
  obtain ⟨s, t, hh⟩ := h
  exact ⟨b.data ++ s, t, by simp [String.data_append, ← hh]⟩

theorem substrOf_pre (a d : String) : substrOf a (a ++ d) :=
  ⟨[], d.data, by simp [String.data_append]⟩

theorem substrOf_suf (a d : String) : substrOf a (d ++ a) :=
  ⟨d.data, [], by simp [String.data_append]⟩

theorem substrOf_joinSep (sep : String) :
    ∀ (l : List String), ∀ x ∈ l, substrOf x (joinSep sep l)
  | [y], x, hx => by
    rcases List.mem_singleton.mp hx with rfl
    exact ⟨[], [], by simp [joinSep]⟩
  | y :: z :: zs, x, hx => by
    rcases List.mem_cons.mp hx with rfl | hx
    · show substrOf x (x ++ sep ++ joinSep sep (z :: zs))
      exact substrOf_app_right _ _ _ (substrOf_pre x sep)
    · exact substrOf_app_left _ _ _ (substrOf_joinSep sep (z :: zs) x hx)

/-- Pushing a projection through `zip`. -/
theorem zip_map_model : ∀ (a : List String) (b : List VResp),
    ((a.zip b).map fun p => (p.1, p.2.model)) = a.zip (b.map VResp.model)
  | [], _ => rfl
  | _ :: _, [] => rfl
  | x :: xs, y :: ys => by
    simpa [List.zip_cons_cons] using zip_map_model xs ys

/-- If every council member's stage-1 reply is a non-empty message, the
valid responses are exactly the council, in request order. -/
theorem partition_all_msg (o : String → MResp) :
    ∀ (council : List String),
      (∀ m ∈ council, ∃ c, o m = MResp.msg c ∧ c ≠ "") →
      (partitionStage1 (council.map fun m => (m, o m))).1.map VResp.model = council
  | [], _ => rfl
  | m :: rest, h => by
    obtain ⟨c, hc, hcne⟩ := h m (List.mem_cons_self m rest)
    have ih := partition_all_msg o rest fun x hx => h x (List.mem_cons_of_mem m hx)
    simp [partitionStage1, hc, hcne, ih]

/-- Every valid stage-1 response originates from a non-empty message entry
of the gathered result list. -/
theorem partition_mem_origin :
    ∀ (l : List (String × MResp)) (v : VResp),
      v ∈ (partitionStage1 l).1 → (v.model, MResp.msg v.response) ∈ l
  | [], v, hv => absurd hv (List.not_mem_nil v)
  | (m, r) :: rest, v, hv => by
    match r with
    | .msg c =>
      by_cases hc : c = ""
      · simp [partitionStage1, hc] at hv
        exact List.mem_cons_of_mem _ (partition_mem_origin rest v hv)
      · simp [partitionStage1, hc] at hv
        rcases hv with rfl | hv
        · exact List.mem_cons_self _ _
        · exact List.mem_cons_of_mem _ (partition_mem_origin rest v hv)
    | .err e =>
      simp [partitionStage1] at hv
      exact List.mem_cons_of_mem _ (partition_mem_origin rest v hv)
    | .null =>
      simp [partitionStage1] at hv
      exact List.mem_cons_of_mem _ (partition_mem_origin rest v hv)

/-- If every council member's stage-1 reply is an error, nothing survives
and the error list collects `model: reason` for each, in request order. -/
theorem partition_all_err (o : String → MResp) :
    ∀ (council : List String),
      (∀ m ∈ council, ∃ e, o m = MResp.err e) →
      partitionStage1 (council.map fun m => (m, o m)) =
        ([], council.map fun m => m ++ ": " ++ errTextOf (o m))
  | [], _ => rfl
  | m :: rest, h => by
    obtain ⟨e, he⟩ := h m (List.mem_cons_self m rest)
    have ih := partition_all_err o rest fun x hx => h x (List.mem_cons_of_mem m hx)
    simp [partitionStage1, he, ih, errTextOf]

/-- If every council member's stage-1 reply is a message with empty
content, nothing survives and no error is recorded. -/
theorem partition_all_blank (o : String → MResp) :
    ∀ (council : List String),
      (∀ m ∈ council, o m = MResp.msg "") →
      partitionStage1 (council.map fun m => (m, o m)) = ([], [])
  | [], _ => rfl
  | m :: rest, h => by
    have ih := partition_all_blank o rest fun x hx => h x (List.mem_cons_of_mem m hx)
    simp [partitionStage1, h m (List.mem_cons_self m rest), ih]

/-- Inserting a reply with empty content anywhere in the gathered list
changes neither the valid responses nor the error list. -/
theorem partition_insert_blank :
    ∀ (l1 l2 : List (String × MResp)) (m : String),
      partitionStage1 (l1 ++ (m, MResp.msg "") :: l2) = partitionStage1 (l1 ++ l2)
  | [], l2, m => by simp [partitionStage1]
  | (m', r) :: rest, l2, m => by
    have ih := partition_insert_blank rest l2 m
    simp [List.cons_append, partitionStage1, ih]

/-- The validation loop computes the two filters of the requested list. -/
theorem resolveExplicit_eq (available : List String) :
    ∀ (requested : List String),
      resolveExplicit available requested =
        (requested.filter (fun m => available.contains m),
         requested.filter (fun m => !available.contains m))
  | [] => rfl
  | m :: rest => by
    have ih := resolveExplicit_eq available rest
    by_cases hc : m ∈ available <;>
      simp [resolveExplicit, ih, List.filter_cons, hc]

/-- The stage-1 valid responses as `consult_council` computes them. -/
def stage1Valid (env : Env) (council : List String) : List VResp :=
  (partitionStage1 (council.map fun m => (m, env.reply m (stage1Messages env)))).1

/-- The stage-1 error list as `consult_council` computes it. -/
def stage1Errors (env : Env) (council : List String) : List String :=
  (partitionStage1 (council.map fun m => (m, env.reply m (stage1Messages env)))).2

/-- The stage-2 records as `consult_council` computes them. -/
def stage2Rankings (env : Env) (council : List String) : List Ranking :=
  collectRankings (council.map fun m =>
    (m, env.reply m (stage2Messages env (stage1Valid env council))))

/-- With a resolved non-empty council, `consult_council` runs the
pipeline. -/
theorem consultCouncil_resolved (env : Env) (council miss : List String)
    (hres : determineTarget env.councilValve env.maxModels env.available =
      Except.ok (council, miss))
    (hne : council ≠ []) :
    consultCouncil env = runPipeline env council := by
  unfold consultCouncil
  rw [hres]
  simp [hne]

/-- The aborting branch of the pipeline. -/
theorem runPipeline_failure (env : Env) (council : List String)
    (hval : stage1Valid env council = []) :
    runPipeline env council =
      (allFailedMsg (stage1Errors env council), council.map Call.stage1) := by
  unfold runPipeline stage1Valid stage1Errors at *
  simp [hval]

/-- The successful branch of the pipeline. -/
theorem runPipeline_success (env : Env) (council : List String)
    (hval : stage1Valid env council ≠ []) :
    runPipeline env council =
      (buildReport (stage1Valid env council) (stage2Rankings env council)
        (resolveChair env.chairValve council)
        (env.reply (resolveChair env.chairValve council)
          (stage3Messages env (stage1Valid env council) (stage2Rankings env council))),
       council.map Call.stage1 ++ council.map Call.stage2
         ++ [Call.stage3 (resolveChair env.chairValve council)]) := by
  unfold runPipeline stage2Rankings stage1Valid at *
  simp [hval]

/-- Any member of the section list of `buildReport` occurs contiguously in
the assembled report. -/
theorem buildReport_sections (valid : List VResp) (rankings : List Ranking)
    (chair : String) (finalResp : MResp) :
    ∀ x ∈ (["# 🏛️ LLM Council Report\n", "## Stage 1: Individual Perspectives"]
        ++ valid.map (fun r => "### " ++ r.model ++ "\n" ++ r.response ++ "\n")
        ++ ["\n## Stage 2: Peer Evaluation & Ranking"]
        ++ rankings.map (fun r => "### " ++ r.model ++ "\x27s Ranking\n" ++ r.full_text ++ "\n")
        ++ [reportStage3 chair finalResp]),
      substrOf x (buildReport valid rankings chair finalResp) := by
  intro x hx
  exact substrOf_joinSep "\n" _ x hx

/-! ### The claims -/

/-- Claim C2: the ranking parser yields `["Response B", "Response A"]` on a
marker-led numbered list, preserves duplicates when falling back to a
global scan without the marker, and returns the empty list (a valid,
non-error value of its return type) when neither the marker nor any
`Response <Letter>` occurrence is present. -/
theorem parse_ranking_from_text_cases :
    parse_ranking_from_text "...FINAL RANKING:\n1. Response B\n2. Response A"
      = ["Response B", "Response A"]
    ∧ parse_ranking_from_text "I could not decide between Response A and Response A."
      = ["Response A", "Response A"]
    ∧ parse_ranking_from_text "no ranking present here" = [] :=
  ⟨by decide, by decide, by decide⟩

/-- Claim C9: `_normalize_topic_to_content` maps the empty list to the
empty string — never the literal string `"[]"` — and passes a non-empty
list of content parts through unchanged. -/
theorem normalize_topic_cases :
    normalize_topic_to_content (Topic.list []) = Content.str ""
    ∧ normalize_topic_to_content (Topic.list []) ≠ Content.str "[]"
    ∧ ∀ l : List ContentPart, l ≠ [] →
        normalize_topic_to_content (Topic.list l) = Content.parts l := by
  refine ⟨rfl, by decide, fun l hl => ?_⟩
  simp [normalize_topic_to_content, hl]

/-- Witness for C9 at a concrete non-empty part list. -/
theorem normalize_topic_cases_witness :
    normalize_topic_to_content (Topic.list [ContentPart.text "hi"])
      = Content.parts [ContentPart.text "hi"] :=
  normalize_topic_cases.2.2 [ContentPart.text "hi"] (by decide)

/-- Claim C5: when the live catalog could not be fetched (empty list), no
filtering happens and the resolved roster is the configured explicit list
verbatim (split on commas and stripped, exactly as `consult_council`
parses the valve). -/
theorem roster_fail_open (valve : String) (mx : Nat)
    (hall : lowerStrip valve ≠ "all") :
    determineTarget valve mx [] = Except.ok (requestedModelsOf valve, []) := by
  simp [determineTarget, hall]

/-- Witness for C5 at a concrete valve. -/
theorem roster_fail_open_witness :
    lowerStrip "m1, m2" ≠ "all"
    ∧ determineTarget "m1, m2" 5 [] = Except.ok (["m1", "m2"], []) :=
  ⟨by decide, roster_fail_open "m1, m2" 5 (by decide)⟩

/-- Claim C4: with a non-empty live catalog, an explicit comma-separated
request resolves to exactly the present members, in requested order
(the `filter` of the requested list), every absent member is excluded
from the roster, and each absent member appears in the collected
warning. -/
theorem roster_explicit_filters (valve : String) (mx : Nat)
    (available : List String)
    (hav : available ≠ []) (hall : lowerStrip valve ≠ "all")
    (hsome : (requestedModelsOf valve).filter (fun m => available.contains m) ≠ []) :
    determineTarget valve mx available =
      Except.ok ((requestedModelsOf valve).filter (fun m => available.contains m),
                 (requestedModelsOf valve).filter (fun m => !available.contains m))
    ∧ ∀ m ∈ requestedModelsOf valve, m ∉ available →
        m ∉ (requestedModelsOf valve).filter (fun m => available.contains m)
        ∧ substrOf m (missingWarning
            ((requestedModelsOf valve).filter (fun m => !available.contains m))) := by
  constructor
  · have hsome2 : ∃ x ∈ requestedModelsOf valve, x ∈ available := by
      obtain ⟨x, hx⟩ := List.exists_mem_of_ne_nil _ hsome
      have hx2 := List.mem_filter.mp hx
      exact ⟨x, hx2.1, by simpa using hx2.2⟩
    simp [determineTarget, hall, hav, resolveExplicit_eq, hsome2]
  · intro m hm hnm
    constructor
    · intro hmem
      have := (List.mem_filter.mp hmem).2
      simp at this
      exact hnm this
    · have hmm : m ∈ (requestedModelsOf valve).filter (fun m => !available.contains m) :=
        List.mem_filter.mpr ⟨hm, by simp [hnm]⟩
      exact substrOf_app_left _ _ _ (substrOf_joinSep ", " _ m hmm)

/-- Witness for C4: three requested models, two present in the catalog. -/
theorem roster_explicit_filters_witness :
    determineTarget "m1, m2 ,m3" 5 ["m1", "m3", "extra"]
      = Except.ok (["m1", "m3"], ["m2"])
    ∧ ("m2" ∉ (["m1", "m2", "m3"].filter (fun m => ["m1", "m3", "extra"].contains m))
       ∧ substrOf "m2" (missingWarning ["m2"])) := by
  have h := roster_explicit_filters "m1, m2 ,m3" 5 ["m1", "m3", "extra"]
    (by decide) (by decide) (by decide)
  exact ⟨h.1, h.2 "m2" (by decide) (by decide)⟩

/-- Claim C1: anonymized labels `A, B, C, …` pair up, in strict
original-request order, with the valid stage-1 responses — when every
requested model succeeds, label `i` belongs to the `i`-th requested model
(`asyncio.gather` preserves issuance order, so completion timing cannot
influence the gathered list) — and a model whose stage-1 call errored
never occurs among the labelled pairs from which the stage-2 ranking
prompt is built. -/
theorem labels_assigned_in_request_order (env : Env) (council : List String) :
    ((∀ m ∈ council, ∃ c, env.reply m (stage1Messages env) = MResp.msg c ∧ c ≠ "") →
      ((labelsFor (stage1Valid env council).length).zip (stage1Valid env council)).map
          (fun p => (p.1, p.2.model))
        = (labelsFor council.length).zip council)
    ∧ (∀ m e, env.reply m (stage1Messages env) = MResp.err e →
        ∀ p ∈ (labelsFor (stage1Valid env council).length).zip (stage1Valid env council),
          p.2.model ≠ m) := by
  constructor
  · intro hall
    have hmap : (stage1Valid env council).map VResp.model = council :=
      partition_all_msg (fun m => env.reply m (stage1Messages env)) council hall
    have hlen : (stage1Valid env council).length = council.length := by
      have hl := congrArg List.length hmap
      simpa using hl
    rw [zip_map_model, hmap, hlen]
  · intro m e he p hp
    obtain ⟨lab, v⟩ := p
    have hv : v ∈ stage1Valid env council := (List.of_mem_zip hp).2
    have horig := partition_mem_origin _ v hv
    rw [List.mem_map] at horig
    obtain ⟨m', _, heq⟩ := horig
    intro hcontra
    have h1 : m' = v.model := congrArg Prod.fst heq
    have h2 : env.reply m' (stage1Messages env) = MResp.msg v.response :=
      congrArg Prod.snd heq
    rw [h1, hcontra, he] at h2
    exact MResp.noConfusion h2

/-- A reply oracle where every model answers with the same non-empty
message. -/
def replyAllOk : String → List (String × Content) → MResp := fun _ _ => MResp.msg "ok"

/-- A reply oracle where model `mY` errors and the rest answer. -/
def replyErrY : String → List (String × Content) → MResp :=
  fun m _ => if m = "mY" then MResp.err "boom" else MResp.msg "ok"

/-- Environment for the all-succeed half of the C1 witness. -/
def envC1a : Env :=
  ⟨Topic.str "Q", "mX,mY,mZ", "", 5, ["mX", "mY", "mZ"], replyAllOk⟩

/-- Environment for the errored-model half of the C1 witness. -/
def envC1b : Env :=
  ⟨Topic.str "Q", "mX,mY,mZ", "", 5, ["mX", "mY", "mZ"], replyErrY⟩

/-- Witness for C1: with models requested in order `[mX, mY, mZ]` all
succeeding, the labelled pairs are exactly `A→mX, B→mY, C→mZ`; and when
`mY` errors, no labelled pair carries `mY`. -/
theorem labels_assigned_witness :
    (((labelsFor (stage1Valid envC1a ["mX", "mY", "mZ"]).length).zip
        (stage1Valid envC1a ["mX", "mY", "mZ"])).map (fun p => (p.1, p.2.model))
      = (labelsFor 3).zip ["mX", "mY", "mZ"])
    ∧ (VResp.mk "mX" "ok").model ≠ "mY" :=
  ⟨(labels_assigned_in_request_order envC1a ["mX", "mY", "mZ"]).1
      (fun _ _ => ⟨"ok", rfl, by decide⟩),
   (labels_assigned_in_request_order envC1b ["mX", "mY", "mZ"]).2 "mY" "boom" rfl
      ("A", VResp.mk "mX" "ok") (by decide)⟩

/-- Claim C3: when every stage-1 call fails, `consult_council` returns the
aggregated failure message — which contains each failed model's identifier
followed by its failure reason — and the only chat requests it ever issued
are the stage-1 ones: no stage-2 ranking request and no stage-3 synthesis
request exists in the call trace. -/
theorem all_stage1_failed_aborts (env : Env) (council miss : List String)
    (hres : determineTarget env.councilValve env.maxModels env.available =
      Except.ok (council, miss))
    (hne : council ≠ [])
    (hfail : ∀ m ∈ council, ∃ e, env.reply m (stage1Messages env) = MResp.err e) :
    ((consultCouncil env).2 = council.map Call.stage1)
    ∧ ∀ m ∈ council, ∀ e, env.reply m (stage1Messages env) = MResp.err e →
        substrOf (m ++ ": " ++ e) (consultCouncil env).1 := by
  have hpart := partition_all_err (fun m => env.reply m (stage1Messages env)) council hfail
  have hval : stage1Valid env council = [] := by simp [stage1Valid, hpart]
  have herr : stage1Errors env council
      = council.map (fun m => m ++ ": " ++ errTextOf (env.reply m (stage1Messages env))) := by
    simp [stage1Errors, hpart]
  have hcc : consultCouncil env =
      (allFailedMsg (stage1Errors env council), council.map Call.stage1) := by
    rw [consultCouncil_resolved env council miss hres hne, runPipeline_failure env council hval]
  constructor
  · rw [hcc]
  · intro m hm e he
    rw [hcc]
    have hmem : (m ++ ": " ++ e) ∈ stage1Errors env council := by
      rw [herr]
      have hrw : m ++ ": " ++ e
          = m ++ ": " ++ errTextOf (env.reply m (stage1Messages env)) := by
        rw [he]
        rfl
      rw [hrw]
      exact List.mem_map_of_mem _ hm
    have hne2 : stage1Errors env council ≠ [] := by
      rw [herr]
      simp [hne]
    unfold allFailedMsg
    rw [if_neg hne2]
    exact substrOf_app_left _ _ _ (substrOf_joinSep "; " _ _ hmem)

/-- A reply oracle where every model's call fails. -/
def replyAllErr : String → List (String × Content) → MResp :=
  fun m _ => MResp.err ("fail " ++ m)

/-- Environment for the C3 witness. -/
def envC3 : Env := ⟨Topic.str "Q", "m1,m2", "", 5, ["m1", "m2"], replyAllErr⟩

/-- Witness for C3: two models, both failing. -/
theorem all_stage1_failed_witness :
    ((consultCouncil envC3).2 = ["m1", "m2"].map Call.stage1)
    ∧ substrOf ("m1" ++ ": " ++ "fail m1") (consultCouncil envC3).1 := by
  have h := all_stage1_failed_aborts envC3 ["m1", "m2"] []
    rfl (by decide) (fun m _ => ⟨"fail " ++ m, rfl⟩)
  exact ⟨h.1, h.2 "m1" (by decide) "fail m1" rfl⟩

/-- Claim C10 (implicit): a stage-1 reply that carries no error marker but
empty content is silently dropped — inserting such an entry anywhere in
the gathered stage-1 results changes neither the valid responses (so it
gets no label and no report section) nor the error list — and when every
model replies with empty content and none errors, the aborting message is
the fixed string ending in `Unknown error`, naming no model. -/
theorem empty_content_silently_dropped (env : Env) (council miss : List String)
    (hres : determineTarget env.councilValve env.maxModels env.available =
      Except.ok (council, miss))
    (hne : council ≠ [])
    (hblank : ∀ m ∈ council, env.reply m (stage1Messages env) = MResp.msg "") :
    consultCouncil env =
      ("Error: Please check your OpenWebUI Base URL and API Key. Details: All council models failed. Errors: Unknown error",
       council.map Call.stage1)
    ∧ ∀ (l1 l2 : List (String × MResp)) (m : String),
        partitionStage1 (l1 ++ (m, MResp.msg "") :: l2) = partitionStage1 (l1 ++ l2) := by
  have hpart := partition_all_blank (fun m => env.reply m (stage1Messages env)) council hblank
  have hval : stage1Valid env council = [] := by simp [stage1Valid, hpart]
  have herr : stage1Errors env council = [] := by simp [stage1Errors, hpart]
  constructor
  · rw [consultCouncil_resolved env council miss hres hne,
      runPipeline_failure env council hval, herr]
    have hmsg : allFailedMsg [] =
        "Error: Please check your OpenWebUI Base URL and API Key. Details: All council models failed. Errors: Unknown error" := by
      decide
    rw [hmsg]
  · exact partition_insert_blank

/-- A reply oracle where every model answers with empty content. -/
def replyBlank : String → List (String × Content) → MResp := fun _ _ => MResp.msg ""

/-- Environment for the C10 witness. -/
def envC10 : Env := ⟨Topic.str "Q", "m1,m2", "", 5, ["m1", "m2"], replyBlank⟩

/-- Witness for C10: both models reply with empty content. -/
theorem empty_content_witness :
    consultCouncil envC10 =
      ("Error: Please check your OpenWebUI Base URL and API Key. Details: All council models failed. Errors: Unknown error",
       [Call.stage1 "m1", Call.stage1 "m2"])
    ∧ partitionStage1 ([("a", MResp.err "x")] ++ ("m", MResp.msg "") :: [])
        = partitionStage1 ([("a", MResp.err "x")] ++ []) := by
  have h := empty_content_silently_dropped envC10 ["m1", "m2"] []
    rfl (by decide) (fun _ _ => rfl)
  exact ⟨h.1, h.2 [("a", MResp.err "x")] [] "m"⟩

/-- Claim C7: when the stage-3 chairperson call fails, `consult_council`
still returns a full report (it is a total function of the oracle — no
exception can escape, every failure is a value) whose Stage 3 section
carries the placeholder error string `Error: No content.` instead of
synthesis text: the error marker dict is truthy, so the branch with the
chairperson header is taken, and the missing `content` key yields the
placeholder. -/
theorem chairperson_failure_degrades (env : Env) (council miss : List String)
    (hres : determineTarget env.councilValve env.maxModels env.available =
      Except.ok (council, miss))
    (hne : council ≠ [])
    (hval : stage1Valid env council ≠ [])
    (e : String)
    (hchair : env.reply (resolveChair env.chairValve council)
        (stage3Messages env (stage1Valid env council) (stage2Rankings env council))
      = MResp.err e) :
    substrOf "# 🏛️ LLM Council Report" (consultCouncil env).1
    ∧ substrOf "## Stage 3: Chairperson Synthesis" (consultCouncil env).1
    ∧ substrOf "Error: No content." (consultCouncil env).1 := by
  rw [consultCouncil_resolved env council miss hres hne,
    runPipeline_success env council hval]
  dsimp only
  rw [hchair]
  have hlast := buildReport_sections (stage1Valid env council) (stage2Rankings env council)
    (resolveChair env.chairValve council) (MResp.err e)
    (reportStage3 (resolveChair env.chairValve council) (MResp.err e)) (by simp)
  have hhead := buildReport_sections (stage1Valid env council) (stage2Rankings env council)
    (resolveChair env.chairValve council) (MResp.err e)
    "# 🏛️ LLM Council Report\n" (by simp)
  have h3a : substrOf "## Stage 3: Chairperson Synthesis"
      (reportStage3 (resolveChair env.chairValve council) (MResp.err e)) := by
    show substrOf "## Stage 3: Chairperson Synthesis"
      ("\n## Stage 3: Chairperson Synthesis (" ++ resolveChair env.chairValve council
        ++ ")\n" ++ "Error: No content.")
    exact substrOf_app_right _ _ _
      (substrOf_app_right _ _ _ (substrOf_app_right _ _ _ (by decide)))
  have h3b : substrOf "Error: No content."
      (reportStage3 (resolveChair env.chairValve council) (MResp.err e)) := by
    show substrOf "Error: No content."
      (("\n## Stage 3: Chairperson Synthesis (" ++ resolveChair env.chairValve council
        ++ ")\n") ++ "Error: No content.")
    exact substrOf_suf _ _
  exact ⟨(by decide : substrOf "# 🏛️ LLM Council Report" "# 🏛️ LLM Council Report\n").trans hhead,
    h3a.trans hlast, h3b.trans hlast⟩

/-- A reply oracle where the model `chair` fails and everyone else
answers. -/
def replyChairErr : String → List (String × Content) → MResp :=
  fun m _ => if m = "chair" then MResp.err "boom" else MResp.msg "fine"

/-- Environment for the C7 witness. -/
def envC7 : Env := ⟨Topic.str "Q", "m1", "chair", 5, ["m1", "chair"], replyChairErr⟩

/-- Witness for C7: one council member succeeding, the chairperson
failing. -/
theorem chairperson_failure_witness :
    substrOf "# 🏛️ LLM Council Report" (consultCouncil envC7).1
    ∧ substrOf "## Stage 3: Chairperson Synthesis" (consultCouncil envC7).1
    ∧ substrOf "Error: No content." (consultCouncil envC7).1 :=
  chairperson_failure_degrades envC7 ["m1"] [] rfl (by decide) (by decide) "boom" rfl

/-- Claim C8: when the chairperson valve is empty, stage 3 is addressed to
the first entry of the resolved council list; and when a catalog is known
but the resolved chairperson is not in it, the pipeline still runs all
three stages (the membership check only emits a warning — the call trace
is the same). -/
theorem chairperson_resolution (env : Env) (council miss : List String)
    (hres : determineTarget env.councilValve env.maxModels env.available =
      Except.ok (council, miss))
    (hne : council ≠ [])
    (hval : stage1Valid env council ≠ []) :
    (env.chairValve = "" →
      (consultCouncil env).2 = council.map Call.stage1 ++ council.map Call.stage2
        ++ [Call.stage3 (council.headD "")])
    ∧ (env.available ≠ [] → resolveChair env.chairValve council ∉ env.available →
      (consultCouncil env).2 = council.map Call.stage1 ++ council.map Call.stage2
        ++ [Call.stage3 (resolveChair env.chairValve council)]) := by
  have hcc := consultCouncil_resolved env council miss hres hne
  have hrun := runPipeline_success env council hval
  constructor
  · intro hcv
    rw [hcc, hrun]
    simp [resolveChair, hcv]
  · intro _ _
    rw [hcc, hrun]

/-- Environment for the default-chairperson half of the C8 witness. -/
def envC8a : Env := ⟨Topic.str "Q", "m1,m2", "", 5, ["m1", "m2"], replyAllOk⟩

/-- Environment for the chairperson-absent-from-catalog half of the C8
witness. -/
def envC8b : Env := ⟨Topic.str "Q", "m1,m2", "ghost", 5, ["m1", "m2"], replyAllOk⟩

/-- Witness for C8: with the valve empty the stage-3 call goes to `m1`,
and with a configured chairperson absent from the catalog the three stages
still run. -/
theorem chairperson_resolution_witness :
    ((consultCouncil envC8a).2 = ["m1", "m2"].map Call.stage1
      ++ ["m1", "m2"].map Call.stage2 ++ [Call.stage3 (["m1", "m2"].headD "")])
    ∧ ((consultCouncil envC8b).2 = ["m1", "m2"].map Call.stage1
      ++ ["m1", "m2"].map Call.stage2 ++ [Call.stage3 (resolveChair "ghost" ["m1", "m2"])]) :=
  ⟨(chairperson_resolution envC8a ["m1", "m2"] [] rfl (by decide) (by decide)).1 rfl,
   (chairperson_resolution envC8b ["m1", "m2"] [] rfl (by decide) (by decide)).2
     (by decide) (by decide)⟩

/-- A reply oracle for the C6 counterexample: every model answers the
stage-1 question `Q`; on any other messages (the ranking and synthesis
prompts) `m2` fails and the rest produce a ranking. -/
def replyC6 (m : String) (msgs : List (String × Content)) : MResp :=
  if msgs = [("user", Content.str "Q")] then MResp.msg ("answer of " ++ m)
  else if m = "m2" then MResp.err "boom"
  else MResp.msg "FINAL RANKING:\n1. Response A\n2. Response B"

/-- Environment for the C6 counterexample. -/
def envC6 : Env := ⟨Topic.str "Q", "m1,m2", "", 5, ["m1", "m2"], replyC6⟩

set_option maxRecDepth 100000 in
/-- Counterexample to claim C6 as stated: `m2` succeeds at stage 1 but its
stage-2 ranking call returns an error marker; contrary to the claim, `m2`
is NOT excluded — it appears in the rankings collection (with empty raw
text and empty parsed list) that feeds the stage-3 summary, and its
section is printed in the report. -/
theorem stage2_error_excluded_counterexample :
    Ranking.mk "m2" "" [] ∈ stage2Rankings envC6 ["m1", "m2"]
    ∧ substrOf ("### m2\x27s Ranking") (consultCouncil envC6).1 := by
  constructor
  · decide
  · decide

/-- Claim C6 amended: a model whose stage-2 call fails is NOT excluded —
the error dict is truthy, so the model is appended to the rankings with
empty raw text and an empty parsed list (and its section is printed in the
report); models whose replies merely fail to parse are likewise included
with their raw text.  Only a falsy reply is skipped. -/
theorem stage2_failures_still_included (l1 l2 : List (String × MResp)) (m e : String) :
    (collectRankings (l1 ++ (m, MResp.err e) :: l2)
       = collectRankings l1 ++ Ranking.mk m "" [] :: collectRankings l2)
    ∧ (∀ c, collectRankings ((m, MResp.msg c) :: l2)
       = Ranking.mk m c (parse_ranking_from_text c) :: collectRankings l2)
    ∧ (∀ (valid : List VResp) (rankings : List Ranking) (chair : String) (fr : MResp),
        ∀ r ∈ rankings,
          substrOf (("### " ++ r.model ++ "\x27s Ranking\n") ++ r.full_text)
            (buildReport valid rankings chair fr)) := by
  refine ⟨?_, fun c => rfl, ?_⟩
  · induction l1 with
    | nil => rfl
    | cons hd tl ih =>
      obtain ⟨m', r⟩ := hd
      cases r <;> simp [collectRankings, ih]
  · intro valid rankings chair fr r hr
    have hx := List.mem_map_of_mem
      (fun r => "### " ++ r.model ++ "\x27s Ranking\n" ++ r.full_text ++ "\n") hr
    have hmem : ("### " ++ r.model ++ "\x27s Ranking\n" ++ r.full_text ++ "\n")
        ∈ (["# 🏛️ LLM Council Report\n", "## Stage 1: Individual Perspectives"]
          ++ valid.map (fun r => "### " ++ r.model ++ "\n" ++ r.response ++ "\n")
          ++ ["\n## Stage 2: Peer Evaluation & Ranking"]
          ++ rankings.map (fun r => "### " ++ r.model ++ "\x27s Ranking\n" ++ r.full_text ++ "\n")
          ++ [reportStage3 chair fr]) :=
      List.mem_append.mpr (Or.inl (List.mem_append.mpr (Or.inr hx)))
    have hrep := buildReport_sections valid rankings chair fr _ hmem
    exact (substrOf_pre _ "\n").trans hrep

/-- Witness for the amended C6: a concrete failed stage-2 entry is kept
with empty text, a concrete unparseable reply is kept with its raw text,
and a concrete ranking record's section occurs in the report. -/
theorem stage2_failures_witness :
    (collectRankings ([("m1", MResp.msg "text")] ++ ("m2", MResp.err "boom") :: [])
       = collectRankings [("m1", MResp.msg "text")]
         ++ Ranking.mk "m2" "" [] :: collectRankings [])
    ∧ (collectRankings [("m3", MResp.msg "unparseable")]
       = Ranking.mk "m3" "unparseable" (parse_ranking_from_text "unparseable")
           :: collectRankings [])
    ∧ substrOf (("### " ++ (Ranking.mk "m3" "unparseable" []).model ++ "\x27s Ranking\n")
          ++ (Ranking.mk "m3" "unparseable" []).full_text)
        (buildReport [] [Ranking.mk "m3" "unparseable" []] "c" MResp.null) :=
  ⟨(stage2_failures_still_included [("m1", MResp.msg "text")] [] "m2" "boom").1,
   (stage2_failures_still_included [] [] "m3" "boom").2.1 "unparseable",
   (stage2_failures_still_included [] [] "m3" "boom").2.2 []
     [Ranking.mk "m3" "unparseable" []] "c" MResp.null
     (Ranking.mk "m3" "unparseable" []) (by decide)⟩

end LLMCouncil
